import Mathlib

/-!
Verification development for the SixtyFPS runtime core excerpt:
the single-handler signal primitive (`abi/signals.rs`) and the
window controller interface (`window.rs`).

The Rust code is shallowly embedded: handlers (boxed closures and
`extern "C"` function pointers) are represented by opaque identifiers,
and invoking a handler or a destructor is recorded as an event in a
trace instead of being executed, so that "which handler fired, with
which context and argument" becomes an observable value.
-/

namespace SixtyFps

/-- Shallow embedding of `EvaluationContext`: an opaque borrowed reference
to the root component instance, identified here by an id. -/
structure EvaluationContext where
  root : Nat
deriving DecidableEq

/-! ## Typed signal (`Signal<Arg>`, signals.rs lines 14-37)

The Rust struct is `struct Signal<Arg> { handler: Option<Box<dyn Fn(&EvaluationContext, Arg)>> }`.
The boxed closure is represented by an opaque value of type `H`; calling it
is recorded as a `SigCall` event. -/

/-- Shallow embedding of `Signal<Arg>`: the single optional handler slot.
`H` stands for the boxed handler closure. `#[derive(Default)]` gives the
default value `{ handler := none }`. -/
structure Signal (H : Type) where
  handler : Option H := none
deriving DecidableEq

/-- Record of one handler invocation `h(context, a)`: which handler was
called, with which evaluation context and argument. -/
structure SigCall (H A : Type) where
  handler : H
  context : EvaluationContext
  arg : A
deriving DecidableEq

/-- Embedding of `Signal::emit` (signals.rs lines 25-29): `emit` takes the
signal by shared reference (`&self`), so the state-passing embedding returns
the signal unchanged together with the trace of handler invocations:
`if let Some(h) = &self.handler { h(context, a); }`. -/
def Signal.emit {H A : Type} (s : Signal H) (context : EvaluationContext) (a : A) :
    Signal H × List (SigCall H A) :=
  match s.handler with
  | some h => (s, [⟨h, context, a⟩])
  | none => (s, [])

/-- Embedding of `Signal::set_handler` (signals.rs lines 34-36):
`self.handler = Some(Box::new(f))`. -/
def Signal.set_handler {H : Type} (s : Signal H) (f : H) : Signal H :=
  { s with handler := some f }

/-- Apply a finite sequence of `set_handler` calls in order. -/
def applySetHandlers {H : Type} (s : Signal H) (fs : List H) : Signal H :=
  fs.foldl Signal.set_handler s

lemma applySetHandlers_handler {H : Type} (s : Signal H) (fs : List H) (hne : fs ≠ []) :
    (applySetHandlers s fs).handler = some (fs.getLast hne) := by
  induction fs generalizing s with
  | nil => exact absurd rfl hne
  | cons f fs ih =>
    cases fs with
    | nil => rfl
    | cons g gs =>
      simpa [applySetHandlers, Signal.set_handler, List.getLast] using
        ih (Signal.set_handler s f) (by simp)

end SixtyFps

namespace SixtyFps

/-! ## FFI boundary of the signal (signals.rs lines 75-138)

`sixtyfps_signal_set_handler` wraps the `(binding, user_data, drop_user_data)`
triple in a `UserData` value whose `Drop` impl calls `drop_user_data(user_data)`
when present; the closure capturing it is stored in the slot. Replacing the
boxed closure (in `set_handler`) or reading the signal out in
`sixtyfps_signal_drop` drops the captured `UserData`, firing the destructor.
Function pointers are represented by `Nat` identifiers. -/

/-- Embedding of the `UserData` triple captured by the handler closure built
in `sixtyfps_signal_set_handler` (signals.rs lines 114-126). -/
structure FfiHandler where
  binding : Nat
  user_data : Nat
  drop_user_data : Option Nat
deriving DecidableEq

/-- Observable events at the FFI boundary: a call of the `binding` function
pointer with its user data and the context, or a call of a `drop_user_data`
destructor with its user data. -/
inductive FfiEvent where
  | bindingCall (binding : Nat) (user_data : Nat) (context : EvaluationContext)
  | destructorCall (dtor : Nat) (user_data : Nat)
deriving DecidableEq

/-- Events fired by `impl Drop for UserData` (signals.rs lines 119-125):
`if let Some(x) = self.drop_user_data { x(self.user_data) }`. -/
def UserData.dropEvents (h : FfiHandler) : List FfiEvent :=
  match h.drop_user_data with
  | some d => [.destructorCall d h.user_data]
  | none => []

/-- Events fired when a handler slot's current content is destroyed:
dropping the boxed closure drops its captured `UserData`. -/
def slotDropEvents : Option FfiHandler → List FfiEvent
  | some h => UserData.dropEvents h
  | none => []

/-- Embedding of `sixtyfps_signal_set_handler` (signals.rs lines 106-132):
stores the new handler closure; the assignment `self.handler = Some(...)`
drops the previous boxed closure, firing its captured destructor. -/
def sixtyfps_signal_set_handler (slot : Option FfiHandler)
    (binding : Nat) (user_data : Nat) (drop_user_data : Option Nat) :
    Option FfiHandler × List FfiEvent :=
  (some ⟨binding, user_data, drop_user_data⟩, slotDropEvents slot)

/-- Embedding of `sixtyfps_signal_emit` (signals.rs lines 94-100): calls
`Signal::emit` on the slot, whose stored closure runs
`binding(ud.user_data, compo)`. -/
def sixtyfps_signal_emit (slot : Option FfiHandler) (context : EvaluationContext) :
    List FfiEvent :=
  match slot with
  | some h => [.bindingCall h.binding h.user_data context]
  | none => []

/-- Embedding of `sixtyfps_signal_drop` (signals.rs lines 136-138):
`core::ptr::read` moves the signal value out and drops it, dropping the
boxed closure and its captured `UserData`. -/
def sixtyfps_signal_drop (slot : Option FfiHandler) : List FfiEvent :=
  slotDropEvents slot

/-- Operations a caller can perform on one signal through the FFI. -/
inductive SignalOp where
  | set_handler (binding : Nat) (user_data : Nat) (drop_user_data : Option Nat)
  | emit (context : EvaluationContext)
  | drop
deriving DecidableEq

/-- One FFI operation on the channel state (the handler slot; `drop` empties
it since the channel no longer owns anything afterwards). -/
def stepOp (slot : Option FfiHandler) : SignalOp → Option FfiHandler × List FfiEvent
  | .set_handler b u d => sixtyfps_signal_set_handler slot b u d
  | .emit ctx => (slot, sixtyfps_signal_emit slot ctx)
  | .drop => (none, sixtyfps_signal_drop slot)

/-- Run a sequence of FFI operations, concatenating the event traces. -/
def runOps (slot : Option FfiHandler) : List SignalOp → Option FfiHandler × List FfiEvent
  | [] => (slot, [])
  | op :: ops =>
    let s₁ := stepOp slot op
    let s₂ := runOps s₁.1 ops
    (s₂.1, s₁.2 ++ s₂.2)

/-- The destructor calls `(dtor, user_data)` occurring in a trace, in order. -/
def destructorCalls : List FfiEvent → List (Nat × Nat)
  | [] => []
  | .destructorCall d u :: es => (d, u) :: destructorCalls es
  | .bindingCall _ _ _ :: es => destructorCalls es

/-- The destructors registered by the `set_handler` operations of a sequence,
as `(dtor, user_data)` pairs in registration order; registrations without a
destructor contribute nothing. -/
def registeredDtors : List SignalOp → List (Nat × Nat)
  | [] => []
  | .set_handler _ u (some d) :: ops => (d, u) :: registeredDtors ops
  | .set_handler _ _ none :: ops => registeredDtors ops
  | .emit _ :: ops => registeredDtors ops
  | .drop :: ops => registeredDtors ops

/-- The destructor call still owed by the current slot content. -/
def pendingDtors (slot : Option FfiHandler) : List (Nat × Nat) :=
  destructorCalls (slotDropEvents slot)

lemma destructorCalls_append (a b : List FfiEvent) :
    destructorCalls (a ++ b) = destructorCalls a ++ destructorCalls b := by
  induction a with
  | nil => rfl
  | cons e es ih => cases e <;> simp [destructorCalls, ih]

lemma runOps_append (slot : Option FfiHandler) (a b : List SignalOp) :
    runOps slot (a ++ b) =
      ((runOps (runOps slot a).1 b).1, (runOps slot a).2 ++ (runOps (runOps slot a).1 b).2) := by
  induction a generalizing slot with
  | nil => simp [runOps]
  | cons op ops ih => simp [runOps, ih, List.append_assoc]

lemma destructorCalls_emit (slot : Option FfiHandler) (ctx : EvaluationContext) :
    destructorCalls (sixtyfps_signal_emit slot ctx) = [] := by
  cases slot <;> simp [sixtyfps_signal_emit, destructorCalls]

/-- Conservation invariant: over a drop-free operation sequence, the
destructors already fired plus the one still owed by the slot equal the
pending destructor at the start plus all destructors registered meanwhile. -/
lemma runOps_dtor_inv (ops : List SignalOp) (hnd : ∀ op ∈ ops, op ≠ SignalOp.drop)
    (slot : Option FfiHandler) :
    destructorCalls (runOps slot ops).2 ++ pendingDtors (runOps slot ops).1 =
      pendingDtors slot ++ registeredDtors ops := by
  induction ops generalizing slot with
  | nil => simp [runOps, destructorCalls, registeredDtors]
  | cons op ops ih =>
    have hop : op ≠ SignalOp.drop := hnd op (by simp)
    have hnd' : ∀ o ∈ ops, o ≠ SignalOp.drop := fun o ho => hnd o (by simp [ho])
    cases op with
    | set_handler b u d =>
      have := ih hnd' (some ⟨b, u, d⟩)
      cases d with
      | none =>
        simpa [runOps, stepOp, sixtyfps_signal_set_handler, destructorCalls_append,
          registeredDtors, pendingDtors, List.append_assoc] using this
      | some dt =>
        simpa [runOps, stepOp, sixtyfps_signal_set_handler, destructorCalls_append,
          registeredDtors, pendingDtors, List.append_assoc] using this
    | emit ctx =>
      have := ih hnd' slot
      simpa [runOps, stepOp, destructorCalls_append, destructorCalls_emit,
        registeredDtors] using this
    | drop => exact absurd rfl hop

end SixtyFps

namespace SixtyFps

/-! ## Memory layout of the signal across the FFI (signals.rs lines 75-90)

`SignalOpaque` is `#[repr(C)] struct (*const c_void, *const c_void)`: two
pointer-sized words. `Signal<()>` is `#[repr(C)]` with the single field
`Option<Box<dyn Fn(&EvaluationContext, ())>>`, a nullable fat pointer
(data word + vtable word) whose `None` is the null data word. Word values
are modelled as `Nat`. -/

/-- Runtime value of the fat pointer `Box<dyn Fn(&EvaluationContext, ())>`:
the data (allocation) word and the vtable word. A real box has a non-null
data pointer. -/
structure BoxDynFn where
  data : Nat
  vtable : Nat
deriving DecidableEq

/-- The two pointer-sized words of `struct SignalOpaque(*const c_void, *const c_void)`. -/
structure SignalOpaque where
  word0 : Nat
  word1 : Nat
deriving DecidableEq

/-- Representation of a `Signal<()>` value (its `Option<Box<dyn Fn>>` handler
slot) as the two words of the shared memory block: `None` stores null in
both words, `Some` stores the fat pointer. -/
def encodeSignalUnit : Option BoxDynFn → SignalOpaque
  | none => ⟨0, 0⟩
  | some b => ⟨b.data, b.vtable⟩

/-- Reading the two-word block back as a `Signal<()>` handler slot: a null
data word is `None`, otherwise the fat pointer is reassembled. -/
def decodeSignalUnit (o : SignalOpaque) : Option BoxDynFn :=
  if o.word0 = 0 then none else some ⟨o.word0, o.word1⟩

/-- Validity of a `Signal<()>` runtime value: a present box has a non-null
data pointer. -/
def ValidSignalVal : Option BoxDynFn → Prop
  | none => True
  | some b => b.data ≠ 0

instance (s : Option BoxDynFn) : Decidable (ValidSignalVal s) := by
  cases s <;> simp [ValidSignalVal] <;> infer_instance

/-- Well-formedness of a block written through either view: a null data word
was written by `None`, which zeroes the second word too. -/
def WfBlock (o : SignalOpaque) : Prop := o.word0 = 0 → o.word1 = 0

instance (o : SignalOpaque) : Decidable (WfBlock o) := by
  unfold WfBlock; infer_instance

/-- Size in bytes of `SignalOpaque` for a given pointer size: two pointer
fields in a `#[repr(C)]` struct. -/
def size_of_SignalOpaque (ptrSize : Nat) : Nat := 2 * ptrSize

/-- Alignment of `SignalOpaque`: that of its pointer fields. -/
def align_of_SignalOpaque (ptrSize : Nat) : Nat := ptrSize

/-- Size in bytes of `Signal<()>`: its one field is a nullable fat pointer,
data word plus vtable word. -/
def size_of_Signal_unit (ptrSize : Nat) : Nat := 2 * ptrSize

/-- Alignment of `Signal<()>`: that of the pointers making up the fat pointer. -/
def align_of_Signal_unit (ptrSize : Nat) : Nat := ptrSize

/-- Embedding of `sixtyfps_signal_init` (signals.rs lines 87-90):
`core::ptr::write(out as *mut Signal<()>, Default::default())` writes the
value `Signal { handler: None }` through the block. Constructing
`None::<Box<dyn Fn>>` defines only the niche: the data word is null; the
other word of the wide pointer is left uninitialized by the write, so the
resulting block carries an arbitrary value `uninit` there. -/
def sixtyfps_signal_init (uninit : Nat) : SignalOpaque :=
  ⟨0, uninit⟩

end SixtyFps

namespace SixtyFps

/-! ## Window controller (window.rs)

`window.rs` declares the `GenericWindow` trait (lines 26-107) and the
`ComponentWindow` wrapper (lines 109-190) that forwards every call to the
wrapped `Rc<dyn GenericWindow>`. The trait's implementations live in the
graphics backend, outside this excerpt; their behavior is modelled from the
spec and the trait's own documentation. -/

/-- Opaque reference to a component instance (`ComponentRc`). -/
structure ComponentRc where
  id : Nat
deriving DecidableEq

/-- Opaque reference to one item in the tree (`ItemRc`). -/
structure ItemRc where
  id : Nat
deriving DecidableEq

/-- Opaque pinned item reference (`Pin<ItemRef>`), for resource release. -/
structure ItemRef where
  id : Nat
deriving DecidableEq

/-- Window-relative position (`crate::graphics::Point`). -/
structure Point where
  x : Int
  y : Int
deriving DecidableEq

/-- Opaque key event record (`crate::input::KeyEvent`). -/
structure KeyEvent where
  code : Nat
deriving DecidableEq

/-- Modelled from the spec: the window controller state of a `GenericWindow`
implementation (implementations are outside this excerpt): the associated
root component, the currently focused item, and the at-most-one active popup
with its anchor position. -/
structure WindowState where
  component : Option ComponentRc := none
  focus_item : Option ItemRc := none
  popup : Option (ComponentRc × Point) := none
deriving DecidableEq

/-- Focus notifications delivered to items during focus transfer. -/
inductive FocusEvent where
  | focusLost (item : ItemRc)
  | focusGained (item : ItemRc)
deriving DecidableEq

/-- Key-event dispatch into the item tree: delivery of an event to one item. -/
structure KeyDispatch where
  target : ItemRc
  event : KeyEvent
deriving DecidableEq

/-- Modelled from the spec: `GenericWindow::show_popup` — "Show a popup at
the given position"; at most one popup is shown at a time, showing a new
popup while one is active replaces it. -/
def WindowState.show_popup (w : WindowState) (popup : ComponentRc) (position : Point) :
    WindowState :=
  { w with popup := some (popup, position) }

/-- Modelled from the spec: `GenericWindow::close_popup` — "Close the active
popup if any"; closing with no popup active is a no-op. -/
def WindowState.close_popup (w : WindowState) : WindowState :=
  { w with popup := none }

/-- Modelled from the spec: `GenericWindow::process_key_input` — the event is
routed to the currently focused item only; with no focused item it is dropped
silently. Returns the new state and the dispatches performed. -/
def WindowState.process_key_input (w : WindowState) (event : KeyEvent) :
    WindowState × List KeyDispatch :=
  match w.focus_item with
  | some item => (w, [⟨item, event⟩])
  | none => (w, [])

/-- Modelled from the spec: `GenericWindow::set_focus_item` — clears focus
from the previous item, if any, before setting the new one: the old item
receives a focus-lost notification, then the new item receives focus-gained. -/
def WindowState.set_focus_item (w : WindowState) (focus_item : ItemRc) :
    WindowState × List FocusEvent :=
  match w.focus_item with
  | some old =>
    ({ w with focus_item := some focus_item },
      [.focusLost old, .focusGained focus_item])
  | none =>
    ({ w with focus_item := some focus_item }, [.focusGained focus_item])

/-- Modelled from the spec: `GenericWindow::set_component` — associates the
window with the given root component. -/
def WindowState.set_component (w : WindowState) (component : ComponentRc) : WindowState :=
  { w with component := some component }

end SixtyFps

namespace SixtyFps

/-! ## The `ComponentWindow` wrapper (window.rs lines 109-190)

`ComponentWindow(pub Rc<dyn GenericWindow>)` holds a trait object: a vtable
of operations plus shared mutable state. The trait object is embedded as a
record of state-transforming operations over an abstract state type `S`;
`f32` values (the scale factor) are carried as opaque bit patterns. -/

/-- Record of the `GenericWindow` trait operations used by `ComponentWindow`,
over an implementation state `S`. Operations that dispatch into items also
return their observable dispatches. -/
structure GenericWindow (S : Type) where
  set_component : S → ComponentRc → S
  process_key_input : S → KeyEvent → S × List KeyDispatch
  set_focus_item : S → ItemRc → S × List FocusEvent
  show_popup : S → ComponentRc → Point → S
  close_popup : S → S
  scale_factor : S → Nat
  set_scale_factor : S → Nat → S
  free_graphics_resources : S → List ItemRef → S
  map_window : S → S
  unmap_window : S → S

/-- Embedding of `ComponentWindow`: the wrapped window implementation
(vtable plus current state of the shared `Rc` target). -/
structure ComponentWindow (S : Type) where
  window_impl : GenericWindow S
  state : S

/-- `ComponentWindow::new` (window.rs lines 118-120). -/
def ComponentWindow.new {S : Type} (window_impl : GenericWindow S) (state : S) :
    ComponentWindow S :=
  ⟨window_impl, state⟩

/-- `ComponentWindow::scale_factor` (window.rs lines 133-135): `self.0.scale_factor()`. -/
def ComponentWindow.scale_factor {S : Type} (w : ComponentWindow S) : Nat :=
  w.window_impl.scale_factor w.state

/-- `ComponentWindow::set_scale_factor` (window.rs lines 138-140). -/
def ComponentWindow.set_scale_factor {S : Type} (w : ComponentWindow S) (factor : Nat) :
    ComponentWindow S :=
  { w with state := w.window_impl.set_scale_factor w.state factor }

/-- `ComponentWindow::free_graphics_resources` (window.rs lines 144-146). -/
def ComponentWindow.free_graphics_resources {S : Type} (w : ComponentWindow S)
    (items : List ItemRef) : ComponentWindow S :=
  { w with state := w.window_impl.free_graphics_resources w.state items }

/-- `ComponentWindow::process_key_input` (window.rs lines 167-169). -/
def ComponentWindow.process_key_input {S : Type} (w : ComponentWindow S) (event : KeyEvent) :
    ComponentWindow S × List KeyDispatch :=
  ({ w with state := (w.window_impl.process_key_input w.state event).1 },
    (w.window_impl.process_key_input w.state event).2)

/-- `ComponentWindow::set_focus_item` (window.rs lines 173-175). -/
def ComponentWindow.set_focus_item {S : Type} (w : ComponentWindow S) (focus_item : ItemRc) :
    ComponentWindow S × List FocusEvent :=
  ({ w with state := (w.window_impl.set_focus_item w.state focus_item).1 },
    (w.window_impl.set_focus_item w.state focus_item).2)

/-- `ComponentWindow::set_component` (window.rs lines 178-180). -/
def ComponentWindow.set_component {S : Type} (w : ComponentWindow S) (component : ComponentRc) :
    ComponentWindow S :=
  { w with state := w.window_impl.set_component w.state component }

/-- `ComponentWindow::show_popup` (window.rs lines 183-185). -/
def ComponentWindow.show_popup {S : Type} (w : ComponentWindow S) (popup : ComponentRc)
    (position : Point) : ComponentWindow S :=
  { w with state := w.window_impl.show_popup w.state popup position }

/-- `ComponentWindow::close_popup` (window.rs lines 187-189). -/
def ComponentWindow.close_popup {S : Type} (w : ComponentWindow S) : ComponentWindow S :=
  { w with state := w.window_impl.close_popup w.state }

/-- `ComponentWindow::run` (window.rs lines 122-130): maps the window on a
fresh event loop, runs the loop (`loopRun`, external to this excerpt), then
unmaps the window. -/
def ComponentWindow.run {S : Type} (w : ComponentWindow S) (loopRun : S → S) :
    ComponentWindow S :=
  { w with state := w.window_impl.unmap_window (loopRun (w.window_impl.map_window w.state)) }

end SixtyFps

namespace SixtyFps

/-! ## Claim theorems -/

/-- C1: for every channel and every finite sequence of `set_handler` calls on
it, a subsequent `emit` invokes exactly the most recently set handler, passing
it the given evaluation context and argument, and every handler invocation in
the trace is of that last handler — no previously set handler fires. -/
theorem C1_emit_invokes_last_handler {H A : Type} (s : Signal H) (fs : List H)
    (hne : fs ≠ []) (ctx : EvaluationContext) (a : A) :
    (Signal.emit (applySetHandlers s fs) ctx a).2 = [⟨fs.getLast hne, ctx, a⟩] ∧
    ∀ c ∈ (Signal.emit (applySetHandlers s fs) ctx a).2, c.handler = fs.getLast hne := by
  have h := applySetHandlers_handler s fs hne
  have he : (Signal.emit (applySetHandlers s fs) ctx a).2 = [⟨fs.getLast hne, ctx, a⟩] := by
    unfold Signal.emit
    rw [h]
  refine ⟨he, ?_⟩
  intro c hc
  rw [he] at hc
  simp at hc
  rw [hc]

/-- Witness for C1 at a concrete channel: after setting handlers 3 then 5,
emitting fires handler 5 with the given context and argument. -/
theorem C1_witness :
    ([3, 5] : List Nat) ≠ [] ∧
    (Signal.emit (applySetHandlers (Signal.mk (none : Option Nat)) [3, 5]) ⟨0⟩ ()).2 =
      [⟨5, ⟨0⟩, ()⟩] := by
  refine ⟨by decide, ?_⟩
  have h :=
    (C1_emit_invokes_last_handler (Signal.mk (none : Option Nat)) [3, 5] (by decide) ⟨0⟩ ()).1
  simpa using h

/-- C2: over any drop-free sequence of FFI operations followed by
`sixtyfps_signal_drop`, the destructor calls that fire are exactly the
destructors supplied to `sixtyfps_signal_set_handler`, one call per
registration, in registration order: each fires exactly once — at replacement
or at channel drop, never both, never zero times when one was supplied. -/
theorem C2_destructor_fires_exactly_once (pre : List SignalOp)
    (hnd : ∀ op ∈ pre, op ≠ SignalOp.drop) :
    destructorCalls (runOps none (pre ++ [SignalOp.drop])).2 = registeredDtors pre := by
  have hinv := runOps_dtor_inv pre hnd none
  have happ := runOps_append none pre [SignalOp.drop]
  calc destructorCalls (runOps none (pre ++ [SignalOp.drop])).2
      = destructorCalls ((runOps none pre).2 ++
          (sixtyfps_signal_drop (runOps none pre).1 ++ [])) := by
        rw [happ]
        rfl
    _ = destructorCalls (runOps none pre).2 ++ pendingDtors (runOps none pre).1 := by
        rw [destructorCalls_append]
        simp [sixtyfps_signal_drop, pendingDtors]
    _ = pendingDtors (none : Option FfiHandler) ++ registeredDtors pre := hinv
    _ = registeredDtors pre := by
        simp [pendingDtors, slotDropEvents, destructorCalls]

/-- Witness for C2 at a concrete sequence: register destructor 7, emit,
register a handler without destructor, register destructor 8, then drop the
channel; destructors 7 and 8 each fire exactly once, in order. -/
theorem C2_witness :
    (∀ op ∈ [SignalOp.set_handler 1 10 (some 7), SignalOp.emit ⟨0⟩,
        SignalOp.set_handler 2 20 none, SignalOp.set_handler 3 30 (some 8)],
      op ≠ SignalOp.drop) ∧
    destructorCalls (runOps none
      ([SignalOp.set_handler 1 10 (some 7), SignalOp.emit ⟨0⟩,
        SignalOp.set_handler 2 20 none, SignalOp.set_handler 3 30 (some 8)] ++
        [SignalOp.drop])).2 = [(7, 10), (8, 30)] := by
  refine ⟨by decide, ?_⟩
  have h := C2_destructor_fires_exactly_once
    [SignalOp.set_handler 1 10 (some 7), SignalOp.emit ⟨0⟩,
      SignalOp.set_handler 2 20 none, SignalOp.set_handler 3 30 (some 8)] (by decide)
  simpa using h

/-- C3: emitting on a channel whose handler slot is empty — as a freshly
initialized channel's is — performs no observable action and leaves the
channel unchanged; the operation is total, so it cannot fail or panic. -/
theorem C3_emit_without_handler_is_noop {H A : Type} (s : Signal H)
    (ctx : EvaluationContext) (a : A) (h : s.handler = none) :
    Signal.emit s ctx a = (s, []) := by
  obtain ⟨hd⟩ := s
  simp only at h
  subst h
  rfl

/-- Witness for C3 at a freshly initialized channel. -/
theorem C3_witness :
    (Signal.mk (none : Option Nat)).handler = none ∧
    Signal.emit (Signal.mk (none : Option Nat)) ⟨0⟩ () = (Signal.mk none, []) :=
  ⟨rfl, C3_emit_without_handler_is_noop (Signal.mk none) ⟨0⟩ () rfl⟩

/-- C4: for every pointer size, the opaque two-word form has exactly the size
and alignment of the typed form `Signal<()>`, and the handler state round-trips
through the shared memory block in both directions: encoding a valid typed
value and decoding it back is the identity, and decoding a well-formed block
and re-encoding reproduces the block. -/
theorem C4_layout_roundtrip (ptrSize : Nat) :
    size_of_SignalOpaque ptrSize = size_of_Signal_unit ptrSize ∧
    align_of_SignalOpaque ptrSize = align_of_Signal_unit ptrSize ∧
    (∀ s : Option BoxDynFn, ValidSignalVal s → decodeSignalUnit (encodeSignalUnit s) = s) ∧
    (∀ o : SignalOpaque, WfBlock o → encodeSignalUnit (decodeSignalUnit o) = o) := by
  refine ⟨rfl, rfl, ?_, ?_⟩
  · intro s hs
    cases s with
    | none => rfl
    | some b =>
      simp only [ValidSignalVal] at hs
      simp [encodeSignalUnit, decodeSignalUnit, hs]
  · intro o ho
    obtain ⟨w0, w1⟩ := o
    by_cases h0 : w0 = 0
    · have h1 := ho h0
      simp only at h1
      subst h0
      subst h1
      rfl
    · simp [decodeSignalUnit, encodeSignalUnit, h0]

/-- Witness for C4 at pointer size 8, a concrete boxed handler and the
zeroed block. -/
theorem C4_witness :
    size_of_SignalOpaque 8 = size_of_Signal_unit 8 ∧
    ValidSignalVal (some ⟨4, 9⟩) ∧
    decodeSignalUnit (encodeSignalUnit (some ⟨4, 9⟩)) = some ⟨4, 9⟩ ∧
    WfBlock ⟨0, 0⟩ ∧
    encodeSignalUnit (decodeSignalUnit ⟨0, 0⟩) = ⟨0, 0⟩ :=
  ⟨(C4_layout_roundtrip 8).1, by decide,
    (C4_layout_roundtrip 8).2.2.1 (some ⟨4, 9⟩) (by decide), by decide,
    (C4_layout_roundtrip 8).2.2.2 ⟨0, 0⟩ (by decide)⟩

/-- Counterexample to C5 as stated: when the destination memory's
unspecified word holds 1, the block after `sixtyfps_signal_init` is not
all-zero — writing `None::<Box<dyn Fn>>` nulls only the niche word, so
"every bit of the two-word block is zero" is not established by the code. -/
theorem C5_counterexample :
    ¬ ((sixtyfps_signal_init 1).word0 = 0 ∧ (sixtyfps_signal_init 1).word1 = 0) := by
  decide

/-- C5 (amended): whatever value the unspecified word ends up holding,
`sixtyfps_signal_init` writes the default signal value — the niche (data)
word of the block is null, and reading the block back through the typed view
yields an empty handler slot. -/
theorem C5_init_empty_slot (uninit : Nat) :
    (sixtyfps_signal_init uninit).word0 = 0 ∧
    decodeSignalUnit (sixtyfps_signal_init uninit) = none := by
  exact ⟨rfl, rfl⟩

/-- C6: the window holds at most one active popup: two successive `show_popup`
calls leave exactly the second popup active, and `close_popup` with no active
popup is a no-op that changes nothing and reports no error. -/
theorem C6_at_most_one_popup (w : WindowState) (p₁ p₂ : ComponentRc) (pos₁ pos₂ : Point) :
    ((w.show_popup p₁ pos₁).show_popup p₂ pos₂).popup = some (p₂, pos₂) ∧
    (w.popup = none → w.close_popup = w) := by
  refine ⟨rfl, ?_⟩
  intro h
  obtain ⟨c, f, p⟩ := w
  simp only at h
  subst h
  rfl

/-- Witness for C6 at a concrete window with no popup and two concrete popups. -/
theorem C6_witness :
    (((WindowState.mk none none none).show_popup ⟨1⟩ ⟨0, 0⟩).show_popup ⟨2⟩ ⟨3, 4⟩).popup =
      some (⟨2⟩, ⟨3, 4⟩) ∧
    (WindowState.mk none none none).popup = none ∧
    (WindowState.mk none none none).close_popup = WindowState.mk none none none :=
  ⟨(C6_at_most_one_popup (WindowState.mk none none none) ⟨1⟩ ⟨2⟩ ⟨0, 0⟩ ⟨3, 4⟩).1, rfl,
    (C6_at_most_one_popup (WindowState.mk none none none) ⟨1⟩ ⟨2⟩ ⟨0, 0⟩ ⟨3, 4⟩).2 rfl⟩

/-- C7: `process_key_input` routes a key event to the currently focused item
only; when no item has focus the event is dropped silently — no dispatch into
the item tree occurs, the state is unchanged, and the total function cannot
panic or report an error. -/
theorem C7_key_input_routing (w : WindowState) (event : KeyEvent) :
    (w.focus_item = none → w.process_key_input event = (w, [])) ∧
    (∀ item, w.focus_item = some item →
      w.process_key_input event = (w, [⟨item, event⟩])) := by
  constructor
  · intro h
    unfold WindowState.process_key_input
    rw [h]
  · intro item h
    unfold WindowState.process_key_input
    rw [h]

/-- Witness for C7: a concrete key event on a window with no focused item is
dropped, and on a window focusing item 5 it is dispatched to item 5 only. -/
theorem C7_witness :
    (WindowState.mk none none none).focus_item = none ∧
    (WindowState.mk none none none).process_key_input ⟨9⟩ =
      (WindowState.mk none none none, []) ∧
    (WindowState.mk none (some ⟨5⟩) none).focus_item = some ⟨5⟩ ∧
    (WindowState.mk none (some ⟨5⟩) none).process_key_input ⟨9⟩ =
      (WindowState.mk none (some ⟨5⟩) none, [⟨⟨5⟩, ⟨9⟩⟩]) :=
  ⟨rfl, (C7_key_input_routing (WindowState.mk none none none) ⟨9⟩).1 rfl, rfl,
    (C7_key_input_routing (WindowState.mk none (some ⟨5⟩) none) ⟨9⟩).2 ⟨5⟩ rfl⟩

/-- C8: after `set_focus_item A` followed by `set_focus_item B`, the second
transfer delivers exactly the two notifications focus-lost to A and
focus-gained to B, in that order and never simultaneously. -/
theorem C8_focus_transfer_make_before_break (w : WindowState) (a b : ItemRc) :
    ((w.set_focus_item a).1.set_focus_item b).2 =
      [FocusEvent.focusLost a, FocusEvent.focusGained b] := by
  obtain ⟨c, f, p⟩ := w
  cases f <;> rfl

/-- C9: `Signal::emit` takes the channel by shared reference and does not
modify it: the channel after `emit` — in particular its registered handler —
is exactly the channel before the call. -/
theorem C9_emit_does_not_modify_channel {H A : Type} (s : Signal H)
    (ctx : EvaluationContext) (a : A) :
    (Signal.emit s ctx a).1 = s ∧ (Signal.emit s ctx a).1.handler = s.handler := by
  obtain ⟨hd⟩ := s
  cases hd <;> exact ⟨rfl, rfl⟩

/-- C10: every forwarded `ComponentWindow` operation passes its arguments
unchanged to the same-named `GenericWindow` operation and returns that
operation's state and result unchanged, leaving the wrapped implementation
itself untouched; `run` maps the window, runs the event loop, and unmaps it. -/
theorem C10_wrapper_forwards {S : Type} (g : GenericWindow S) (st : S)
    (c : ComponentRc) (e : KeyEvent) (it : ItemRc) (p : ComponentRc) (pos : Point)
    (factor : Nat) (items : List ItemRef) (loopRun : S → S) :
    (ComponentWindow.new g st).scale_factor = g.scale_factor st ∧
    ((ComponentWindow.new g st).set_scale_factor factor).state = g.set_scale_factor st factor ∧
    ((ComponentWindow.new g st).free_graphics_resources items).state =
      g.free_graphics_resources st items ∧
    ((ComponentWindow.new g st).process_key_input e).1.state = (g.process_key_input st e).1 ∧
    ((ComponentWindow.new g st).process_key_input e).2 = (g.process_key_input st e).2 ∧
    ((ComponentWindow.new g st).set_focus_item it).1.state = (g.set_focus_item st it).1 ∧
    ((ComponentWindow.new g st).set_focus_item it).2 = (g.set_focus_item st it).2 ∧
    ((ComponentWindow.new g st).set_component c).state = g.set_component st c ∧
    ((ComponentWindow.new g st).show_popup p pos).state = g.show_popup st p pos ∧
    (ComponentWindow.new g st).close_popup.state = g.close_popup st ∧
    ((ComponentWindow.new g st).run loopRun).state =
      g.unmap_window (loopRun (g.map_window st)) ∧
    ((ComponentWindow.new g st).set_scale_factor factor).window_impl = g :=
  ⟨rfl, rfl, rfl, rfl, rfl, rfl, rfl, rfl, rfl, rfl, rfl, rfl⟩

end SixtyFps
